import Mathlib

/-!
Verification of `movie_showtimes_console.py`: a shallow embedding of the
program's data model (JSON-like Python values), its normalizer, flattener,
cache store and display loop, together with theorems settling the frozen
claims about the specification.
-/

set_option autoImplicit false

/-- Python exception kinds relevant to this program.  `keyboardInterrupt`
models `KeyboardInterrupt`, which is a `BaseException` and is *not* caught
by `except Exception`. -/
inductive PyErr where
  | attributeError
  | typeError
  | keyError
  | indexError
  | zeroDivisionError
  | runtimeError
  | keyboardInterrupt
  deriving DecidableEq, Repr

/-- `except Exception` catches every error kind except `KeyboardInterrupt`. -/
def PyErr.isException : PyErr → Bool
  | .keyboardInterrupt => false
  | _ => true

/-- JSON-like Python values as manipulated by the script: `None`, booleans,
integers, strings, lists and string-keyed dicts (the shapes `json.load`
produces; floats do not occur in any claim). -/
inductive Py where
  | none
  | bool (b : Bool)
  | int (n : Int)
  | str (s : String)
  | list (xs : List Py)
  | dict (fields : List (String × Py))
  deriving Repr

/-- Python truthiness (`bool(x)`): `None`, `False`, `0`, `""`, `[]`, `{}`
are falsy, everything else is truthy. -/
def Py.truthy : Py → Bool
  | .none => false
  | .bool b => b
  | .int n => n != 0
  | .str s => s != ""
  | .list xs => !xs.isEmpty
  | .dict fs => !fs.isEmpty

/-- First-match association-list lookup (Python dicts have unique keys, so
first match is the unique match). -/
def lookupStr : List (String × Py) → String → Option Py
  | [], _ => Option.none
  | (k, v) :: rest, key => if k = key then Option.some v else lookupStr rest key

/-- `x.get(k)` (one-argument `dict.get`): `None` default; raises
`AttributeError` when the receiver is not a dict. -/
def Py.get (p : Py) (k : String) : Except PyErr Py :=
  match p with
  | .dict fs => .ok ((lookupStr fs k).getD Py.none)
  | _ => .error .attributeError

/-- `x.get(k, d)` (two-argument `dict.get`). -/
def Py.getD (p : Py) (k : String) (d : Py) : Except PyErr Py :=
  match p with
  | .dict fs => .ok ((lookupStr fs k).getD d)
  | _ => .error .attributeError

/-- Python `a or b` (short-circuit on truthiness, returning the operand). -/
def pyOr (a b : Py) : Py := if a.truthy then a else b

/-- `fs.get(k1) or fs.get(k2) or ... or fs.get(kn)` on a dict's fields: the
first truthy value among the keys, else the raw (possibly falsy) value of
the last key.  Pure because `dict.get` never raises. -/
def chainRawF (fs : List (String × Py)) : List String → Py
  | [] => Py.none
  | [k] => (lookupStr fs k).getD Py.none
  | k :: ks =>
    let v := (lookupStr fs k).getD Py.none
    if v.truthy then v else chainRawF fs ks

/-- `x.get(k1) or ... or x.get(kn)`: raises `AttributeError` when `x` is
not a dict, otherwise the pure chain `chainRawF`. -/
def Py.chainRaw (p : Py) (ks : List String) : Except PyErr Py :=
  match p with
  | .dict fs => .ok (chainRawF fs ks)
  | _ => .error .attributeError

/-- `x.get(k1) or ... or x.get(kn) or d` with a trailing literal default. -/
def Py.chain (p : Py) (ks : List String) (d : Py) : Except PyErr Py := do
  let v ← p.chainRaw ks
  pure (pyOr v d)

/-- Python `len(x)`: defined for strings, lists and dicts; `TypeError`
otherwise. -/
def Py.len : Py → Except PyErr Nat
  | .str s => .ok s.length
  | .list xs => .ok xs.length
  | .dict fs => .ok fs.length
  | _ => .error .typeError

/-- Python `x[0]`: first list element or first character; `IndexError` when
empty, `KeyError` on a (string-keyed) dict, `TypeError` otherwise. -/
def Py.index0 : Py → Except PyErr Py
  | .list [] => .error .indexError
  | .list (x :: _) => .ok x
  | .str s =>
    match s.data with
    | [] => .error .indexError
    | c :: _ => .ok (.str (String.mk [c]))
  | .dict _ => .error .keyError
  | _ => .error .typeError

/-- Python `for x in xs`: lists iterate elements, strings iterate
one-character strings, dicts iterate keys; `TypeError` otherwise. -/
def Py.iter : Py → Except PyErr (List Py)
  | .list xs => .ok xs
  | .str s => .ok (s.data.map (fun c => Py.str (String.mk [c])))
  | .dict fs => .ok (fs.map (fun kv => Py.str kv.fst))
  | _ => .error .typeError

/-- Python `x == t` where `t` is a `str`: true exactly for an equal string
(values of other types never equal a string). -/
def Py.eqStr (p : Py) (t : String) : Bool :=
  match p with
  | .str s => s = t
  | _ => false

/-- The single-quote character used by Python `repr` of strings. -/
def pyQuote : Char := Char.ofNat 39

/-- Escaping of one character inside a Python string `repr`. -/
def escChar (c : Char) : String :=
  if c = Char.ofNat 92 then String.mk [Char.ofNat 92, Char.ofNat 92]
  else if c = Char.ofNat 39 then String.mk [Char.ofNat 92, Char.ofNat 39]
  else if c = Char.ofNat 10 then String.mk [Char.ofNat 92, Char.ofNat 110]
  else if c = Char.ofNat 13 then String.mk [Char.ofNat 92, Char.ofNat 114]
  else if c = Char.ofNat 9 then String.mk [Char.ofNat 92, Char.ofNat 116]
  else String.mk [c]

/-- Python `repr` of a string: single-quoted with escapes. -/
def strRepr (s : String) : String :=
  String.mk [pyQuote] ++ String.join (s.data.map escChar) ++ String.mk [pyQuote]

mutual

/-- Python `repr(x)` for the modelled value shapes. -/
def Py.pyRepr : Py → String
  | .none => "None"
  | .bool true => "True"
  | .bool false => "False"
  | .int n => toString n
  | .str s => strRepr s
  | .list xs => "[" ++ reprElems xs ++ "]"
  | .dict fs => "\x7b" ++ reprFields fs ++ "\x7d"

/-- Comma-separated `repr`s of list elements. -/
def reprElems : List Py → String
  | [] => ""
  | [x] => Py.pyRepr x
  | x :: xs => Py.pyRepr x ++ ", " ++ reprElems xs

/-- Comma-separated `'key': repr(value)` renderings of dict fields. -/
def reprFields : List (String × Py) → String
  | [] => ""
  | [(k, v)] => strRepr k ++ ": " ++ Py.pyRepr v
  | (k, v) :: fs => strRepr k ++ ": " ++ Py.pyRepr v ++ ", " ++ reprFields fs

end

/-- Python `str(x)` (as used by f-string interpolation): strings unchanged,
containers via `repr`. -/
def Py.pyStr (p : Py) : String :=
  match p with
  | .str s => s
  | .none => "None"
  | .bool true => "True"
  | .bool false => "False"
  | .int n => toString n
  | .list xs => Py.pyRepr (.list xs)
  | .dict fs => Py.pyRepr (.dict fs)

/-!
## Normalizer (`normalize_showtimes`, source lines 49-91)
-/

/-- One pass of the time-block loop (source lines 72-79): a dict time block
contributes `"<time> (<type>)"` when a type/format label is truthy and the
bare time value otherwise, and is skipped when its time value is falsy; a
plain string block is appended unchanged; any other shape is skipped. -/
def timesOf : List Py → List Py
  | [] => []
  | tb :: rest =>
    (match tb with
     | Py.dict fs =>
       let t_val := pyOr (chainRawF fs ["time", "start_time", "start"]) (Py.str "")
       let t_type := chainRawF fs ["type", "format", "ticket_type"]
       if t_val.truthy then
         if t_type.truthy then
           [Py.str (t_val.pyStr ++ " (" ++ t_type.pyStr ++ ")")]
         else
           [t_val]
       else []
     | Py.str s => [Py.str s]
     | _ => []) ++ timesOf rest

/-- Body of the per-movie loop (source lines 67-84): title fallback chain,
time-block extraction, and truncation of the surviving times to 8. -/
def normMovie (movie : Py) : Except PyErr Py := do
  let title ← movie.chain ["title", "name", "film_name"] (Py.str "(title unknown)")
  let time_blocks ← movie.chain ["showtimes", "times", "showing"] (Py.list [])
  let tbs ← time_blocks.iter
  pure (Py.dict [("title", title), ("times", Py.list ((timesOf tbs).take 8))])

/-- Sequential processing of the movie list, propagating the first raised
exception (as the Python `for` loop does). -/
def normMovies : List Py → Except PyErr (List Py)
  | [] => pure []
  | m :: rest => do
    let r ← normMovie m
    let rs ← normMovies rest
    pure (r :: rs)

/-- The "today only" sub-step on a movie list (source lines 63-64): when the
list's first element is itself a list, only that first sublist is used. -/
def selectFirstDay (movies : Py) : Py :=
  match movies with
  | .list (Py.list ys :: _) => Py.list ys
  | _ => movies

/-- Body of the per-theater-entry loop (source lines 57-90): name and
address fallback chains, movie-list extraction with the first-sublist step,
and assembly of the normalized theater dict. -/
def normEntry (entry : Py) : Except PyErr Py := do
  let theater_name ← entry.chain ["theater_name", "name"] (Py.str "Unknown Theater")
  let address ← entry.chain ["address", "address_line", "full_address"] (Py.str "")
  let movies0 ← entry.chain ["movies", "showing"] (Py.list [])
  let movies := selectFirstDay movies0
  let ms ← movies.iter
  let rows ← normMovies ms
  pure (Py.dict [("theater", theater_name), ("address", address), ("movies", Py.list rows)])

/-- Sequential processing of the (at most one) theater entries. -/
def normEntries : List Py → Except PyErr (List Py)
  | [] => pure []
  | e :: rest => do
    let r ← normEntry e
    let rs ← normEntries rest
    pure (r :: rs)

/-- `normalize_showtimes(payload)` (source lines 49-91): takes the
`showtimes` field (defaulting to `[]` on falsy), keeps only its first
element, and normalizes each kept theater entry.  Exceptions raised by the
Python code (e.g. `len` of a number, `.get` on a non-dict) are modelled as
`Except.error`. -/
def normalize_showtimes (payload : Py) : Except PyErr Py := do
  let s ← payload.get "showtimes"
  let theaters := pyOr s (Py.list [])
  let theaters ←
    if theaters.truthy then do
      let n ← theaters.len
      if n > 0 then do
        let h ← theaters.index0
        pure (Py.list [h])
      else
        pure theaters
    else
      pure theaters
  let es ← theaters.iter
  let ns ← normEntries es
  pure (Py.list ns)

/-!
## Flattener (`flatten_movies`, lines 151-171) and grouping
(`group_movies_by_theater`, lines 264-287)
-/

/-- The fully denormalized display record built by both `flatten_movies`
and `group_movies_by_theater`.  The `tz` field stores the opaque timezone
object threaded through unchanged; it is modelled as an arbitrary value. -/
structure FlatMovieItem where
  theater_label : Py
  location_label : Py
  theater_name : Py
  address : Py
  title : Py
  times : Py
  now_str : Py
  tz : Py
  deriving Repr

/-- A default record (used only as the out-of-range placeholder of safe
list indexing; never observable). -/
def emptyFlat : FlatMovieItem :=
  ⟨Py.none, Py.none, Py.none, Py.none, Py.none, Py.none, Py.none, Py.none⟩

/-- Body of the innermost `for movie in theater.get("movies", [])` loop
shared verbatim by source lines 160-170 and 274-284. -/
def movieItems (tz now_str theater_label location_label theater_name address : Py) :
    List Py → Except PyErr (List FlatMovieItem)
  | [] => pure []
  | movie :: rest => do
    let title ← movie.chain ["title"] (Py.str "(title unknown)")
    let times ← movie.chain ["times"] (Py.list [])
    let rs ← movieItems tz now_str theater_label location_label theater_name address rest
    pure (⟨theater_label, location_label, theater_name, address, title, times, now_str, tz⟩ :: rs)

/-- Body of the `for theater in entry.get("showtimes", [])` loop shared
verbatim by source lines 156-170 and 271-284: the display name is always
the configured label (falling back to the literal `"Unknown Theater"`),
never the payload theater name. -/
def theaterItems (tz now_str theater_label location_label : Py) :
    List Py → Except PyErr (List FlatMovieItem)
  | [] => pure []
  | theater :: rest => do
    let theater_name := pyOr theater_label (Py.str "Unknown Theater")
    let address ← theater.chain ["address"] (Py.str "")
    let movies ← theater.getD "movies" (Py.list [])
    let ms ← movies.iter
    let items ← movieItems tz now_str theater_label location_label theater_name address ms
    let rs ← theaterItems tz now_str theater_label location_label rest
    pure (items ++ rs)

/-- The per-dataset-entry work shared by both flattening paths: label
extraction (two-argument `get` with `""` default) and the theater loop. -/
def entryItems (tz now_str : Py) (entry : Py) : Except PyErr (List FlatMovieItem) := do
  let theater_label ← entry.getD "theater_label" (Py.str "")
  let location_label ← entry.getD "location_label" (Py.str "")
  let showtimes ← entry.getD "showtimes" (Py.list [])
  let ths ← showtimes.iter
  theaterItems tz now_str theater_label location_label ths

/-- The `for entry in entries` loop of `flatten_movies`: one flat list. -/
def flattenEntries (tz now_str : Py) : List Py → Except PyErr (List FlatMovieItem)
  | [] => pure []
  | e :: rest => do
    let items ← entryItems tz now_str e
    let rs ← flattenEntries tz now_str rest
    pure (items ++ rs)

/-- `flatten_movies(entries, now_str, tz)` (source lines 151-171). -/
def flatten_movies (tz : Py) (entries : Py) (now_str : Py) :
    Except PyErr (List FlatMovieItem) := do
  let es ← entries.iter
  flattenEntries tz now_str es

/-- The `for entry in entries` loop of `group_movies_by_theater`: one group
per entry, empty groups dropped (source lines 285-286). -/
def groupEntries (tz now_str : Py) : List Py → Except PyErr (List (List FlatMovieItem))
  | [] => pure []
  | e :: rest => do
    let theater_movies ← entryItems tz now_str e
    let rs ← groupEntries tz now_str rest
    pure (if theater_movies.isEmpty then rs else theater_movies :: rs)

/-- `group_movies_by_theater(entries, now_str)` (source lines 264-287,
closing over the configured timezone `tz`). -/
def group_movies_by_theater (tz : Py) (entries : Py) (now_str : Py) :
    Except PyErr (List (List FlatMovieItem)) := do
  let es ← entries.iter
  groupEntries tz now_str es

/-!
## Cache store (`load_cached`/`save_cached`, lines 204-221) and
`load_entries_for_today` (lines 255-262)

File contents are passed explicitly: `content` is the JSON value parsed
from the cache file, `Option.none` standing for a missing, unreadable or
unparseable file (every such error returns `None` in the source).
-/

/-- `load_cached(path)` over an explicit file state: `None` for a falsy
path and for any read/parse failure, otherwise the parsed document. -/
def load_cached (content : Option Py) (path : String) : Option Py :=
  if path = "" then Option.none else content

/-- `save_cached(path, date_str, entries)`: the written document
`(date, entries)`, or no write at all when the path is falsy. -/
def save_cached (path : String) (date_str : String) (entries : Py) :
    Option (String × Py) :=
  if path = "" then Option.none else Option.some (date_str, entries)

/-- Observable outcome of `load_entries_for_today`: the returned pair plus
whether `fetch_all` ran and what `save_cached` wrote. -/
structure LoadResult where
  entries : Py
  date : Py
  fetchCalled : Bool
  saved : Option (String × Py)
  deriving Repr

/-- `load_entries_for_today()` (source lines 255-262).  `today_str` is the
current local date string, `content` the cache-file state, and
`fetchResult` the outcome of the external `fetch_all` collaborator (only
consulted when the code reaches the fetch branch). -/
def load_entries_for_today (today_str : String) (content : Option Py)
    (cache_path : String) (fetchResult : Except PyErr Py) : Except PyErr LoadResult :=
  match load_cached content cache_path with
  | Option.some cached_local =>
    if cached_local.truthy then
      match cached_local.get "date" with
      | .error e => .error e
      | .ok d =>
        if d.eqStr today_str then
          match cached_local.get "entries", cached_local.getD "date" (Py.str today_str) with
          | .ok e, .ok dd =>
            .ok ⟨pyOr e (Py.list []), dd, false, Option.none⟩
          | .error e, _ => .error e
          | _, .error e => .error e
        else
          match fetchResult with
          | .error e => .error e
          | .ok fresh => .ok ⟨fresh, Py.str today_str, true, save_cached cache_path today_str fresh⟩
    else
      match fetchResult with
      | .error e => .error e
      | .ok fresh => .ok ⟨fresh, Py.str today_str, true, save_cached cache_path today_str fresh⟩
  | Option.none =>
    match fetchResult with
    | .error e => .error e
    | .ok fresh => .ok ⟨fresh, Py.str today_str, true, save_cached cache_path today_str fresh⟩

/-!
## Rotation engine (`run_display` main loop, source lines 295-333)

The loop body is embedded as a step function over an explicit state.  Per
iteration the environment supplies the current local date, the cache-file
content, the would-be outcome of `fetch_all`, and whether the render sink
or the cycle-delay sleep raises.  An `Except.error` result models an
exception escaping the loop (terminating the process); an `Except.ok`
result is the next state plus the observable action of the iteration.
-/

/-- Configuration closed over by `run_display`. -/
structure RunConfig where
  cache_path : String
  tz : Py
  cycle_delay : Nat
  deriving Repr

/-- External-world inputs of a single loop iteration. -/
structure Env where
  current_date : String
  cacheContent : Option Py
  fetchResult : Except PyErr Py
  renderResult : Option PyErr
  sleepResult : Option PyErr
  deriving Repr

/-- Mutable state of the display loop. -/
structure LoopState where
  entries : Py
  cache_date : Py
  theater_groups : List (List FlatMovieItem)
  theater_idx : Nat
  movie_idx : Nat
  deriving Repr

/-- Observable action of one loop iteration: a rendered item followed by
the cycle-delay sleep, or a reported error followed by a fixed backoff. -/
inductive StepEvent where
  | displayed (item : FlatMovieItem) (delay : Nat)
  | displayError (backoff : Nat)
  | refreshError (backoff : Nat)
  | emptyRefresh (backoff : Nat)
  deriving Repr

/-- Resolution and display part of the loop body (source lines 316-333):
cursor reduction modulo group count and group size (`%` by zero raises
`ZeroDivisionError`), the `try` block around render and sleep with its
`except Exception` handler (5-second backoff, state unchanged), and the
cursor advance. -/
def displayStep (cfg : RunConfig) (env : Env) (st : LoopState) :
    Except PyErr (LoopState × StepEvent) :=
  if st.theater_groups.length = 0 then .error .zeroDivisionError
  else
    let tin := st.theater_idx % st.theater_groups.length
    let current := st.theater_groups.getD tin []
    if current.length = 0 then .error .zeroDivisionError
    else
      let min := st.movie_idx % current.length
      let item := current.getD min emptyFlat
      match env.renderResult with
      | Option.some e => if e.isException then .ok (st, .displayError 5) else .error e
      | Option.none =>
        match env.sleepResult with
        | Option.some e => if e.isException then .ok (st, .displayError 5) else .error e
        | Option.none =>
          let m2 := st.movie_idx + 1
          if m2 ≥ current.length then
            .ok ({st with movie_idx := 0, theater_idx := st.theater_idx + 1},
                 .displayed item cfg.cycle_delay)
          else
            .ok ({st with movie_idx := m2}, .displayed item cfg.cycle_delay)

/-- One full iteration of the `while True` loop (source lines 297-333):
date-rollover check against the cache file, the guarded refresh with its
`except` handler and empty-result backoff, then `displayStep`. -/
def loopIter (cfg : RunConfig) (env : Env) (st : LoopState) :
    Except PyErr (LoopState × StepEvent) :=
  let staleCheck : Except PyErr Bool :=
    match load_cached env.cacheContent cfg.cache_path with
    | Option.none => .ok true
    | Option.some cached =>
      if cached.truthy then
        match cached.get "date" with
        | .error e => .error e
        | .ok d => .ok (!(d.eqStr env.current_date))
      else .ok true
  match staleCheck with
  | .error e => .error e
  | .ok false => displayStep cfg env st
  | .ok true =>
    match load_entries_for_today env.current_date env.cacheContent cfg.cache_path
        env.fetchResult with
    | .error _ => .ok (st, .refreshError 5)
    | .ok lr =>
      match group_movies_by_theater cfg.tz lr.entries lr.date with
      | .error _ =>
        .ok ({st with entries := lr.entries, cache_date := lr.date}, .refreshError 5)
      | .ok groups =>
        let st2 : LoopState := ⟨lr.entries, lr.date, groups, 0, 0⟩
        if groups.isEmpty then .ok (st2, .emptyRefresh 5)
        else displayStep cfg env st2

/-- `n` successive loop iterations under a fixed environment, collecting
the per-iteration events. -/
def runLoop (cfg : RunConfig) (env : Env) : Nat → LoopState →
    Except PyErr (LoopState × List StepEvent)
  | 0, st => .ok (st, [])
  | n + 1, st =>
    match loopIter cfg env st with
    | .error e => .error e
    | .ok (st1, ev) =>
      match runLoop cfg env n st1 with
      | .error e => .error e
      | .ok (st2, evs) => .ok (st2, ev :: evs)

/-!
## Well-typedness of payloads

`normalize_showtimes` can raise on wrong-typed nested fields (e.g. a
numeric `showtimes` value reaches `len` and raises `TypeError`).  The
predicates below delimit the payloads on which every operation the code
performs is defined; they mirror the code's own access pattern.
-/

/-- A movie's time-block field is safe to iterate: any list, string or
dict, or any falsy value (which the `or []` default replaces). -/
def wfTimeField (v : Py) : Bool :=
  match v with
  | .list _ => true
  | .str _ => true
  | .dict _ => true
  | _ => !v.truthy

/-- A movie row is safe: a dict whose extracted time-block field is safe. -/
def wfMovie (m : Py) : Bool :=
  match m with
  | .dict fs => wfTimeField (chainRawF fs ["showtimes", "times", "showing"])
  | _ => false

/-- A theater entry is safe: a dict whose movie list (after defaulting and
the first-sublist step) is a list of safe movie rows. -/
def wfEntry (e : Py) : Bool :=
  match e with
  | .dict fs =>
    match selectFirstDay (pyOr (chainRawF fs ["movies", "showing"]) (Py.list [])) with
    | .list ms => ms.all wfMovie
    | _ => false
  | _ => false

/-- A payload is safe: a dict whose `showtimes` value (after defaulting) is
a list whose first element — the only one the code keeps — is a safe
theater entry. -/
def wfPayload (p : Py) : Bool :=
  match p with
  | .dict fs =>
    match pyOr ((lookupStr fs "showtimes").getD Py.none) (Py.list []) with
    | .list [] => true
    | .list (e :: _) => wfEntry e
    | _ => false
  | _ => false

/-- Whether a computation returned normally (no exception). -/
def excIsOk {α : Type} : Except PyErr α → Bool
  | .ok _ => true
  | .error _ => false

/-!
## Concrete fixtures used by individual claims
-/

/-- A display record with a given title, used to build the `[2,3]` dataset
of the rotation-cursor claim. -/
def c2Item (t : String) : FlatMovieItem :=
  ⟨Py.str "Th", Py.str "Loc", Py.str "Th", Py.str "", Py.str t, Py.list [],
   Py.str "2024-01-02", Py.none⟩

/-- The five items of the `[2,3]` dataset. -/
def c2Groups : List (List FlatMovieItem) :=
  [[c2Item "A0", c2Item "A1"], [c2Item "B0", c2Item "B1", c2Item "B2"]]

/-- Loop configuration for the rotation-cursor claim. -/
def c2Cfg : RunConfig := ⟨"cache.json", Py.none, 10⟩

/-- Environment for the rotation-cursor claim: a fresh same-day cache (so
no refresh is triggered) and no render/sleep failures. -/
def c2Env : Env :=
  ⟨"2024-01-02", Option.some (Py.dict [("date", Py.str "2024-01-02")]),
   Except.ok (Py.list []), Option.none, Option.none⟩

/-- Starting loop state for the rotation-cursor claim: cursor `(0,0)`. -/
def c2St : LoopState := ⟨Py.list [], Py.str "2024-01-02", c2Groups, 0, 0⟩

/-- A dataset entry whose configured label is the empty string while the
raw payload supplies the distinct theater name `"Real Name"`. -/
def c7Entry : Py :=
  Py.dict [("theater_label", Py.str ""), ("location_label", Py.str "X"),
    ("showtimes", Py.list [Py.dict [("theater", Py.str "Real Name"),
      ("movies", Py.list [Py.dict [("title", Py.str "M"), ("times", Py.list [])]])]])]

/-- The single item produced from `c7Entry`. -/
def c7Item : FlatMovieItem :=
  ⟨Py.str "", Py.str "X", Py.str "Unknown Theater", Py.str "", Py.str "M",
   Py.list [], Py.str "2024-01-01", Py.none⟩

/-!
## Helper lemmas
-/

@[simp] theorem exc_ok_bind {α β : Type} (a : α) (f : α → Except PyErr β) :
    (Except.ok a >>= f) = f a := rfl

@[simp] theorem exc_error_bind {α β : Type} (e : PyErr) (f : α → Except PyErr β) :
    ((Except.error e : Except PyErr α) >>= f) = Except.error e := rfl

@[simp] theorem exc_pure {α : Type} (a : α) :
    (pure a : Except PyErr α) = Except.ok a := rfl

@[simp] theorem exc_map_ok {α β : Type} (f : α → β) (a : α) :
    Except.map f (Except.ok a : Except PyErr α) = Except.ok (f a) := rfl

@[simp] theorem exc_map_error {α β : Type} (f : α → β) (e : PyErr) :
    Except.map f (Except.error e : Except PyErr α) = Except.error e := rfl

/-- Every group produced by the `groupEntries` loop is nonempty, because an
empty `theater_movies` batch is dropped rather than appended. -/
theorem groupEntries_nonempty (tz now_str : Py) :
    ∀ (es : List Py) (gs : List (List FlatMovieItem)),
      groupEntries tz now_str es = Except.ok gs → ∀ g ∈ gs, g ≠ []
  | [], gs, h => by
    simp [groupEntries] at h
    subst h
    intro g hg
    simp at hg
  | e :: rest, gs, h => by
    intro g hg
    rw [groupEntries] at h
    cases hi : entryItems tz now_str e with
    | error err => rw [hi] at h; simp at h
    | ok its =>
      rw [hi] at h
      cases hr : groupEntries tz now_str rest with
      | error err => rw [hr] at h; simp at h
      | ok gs' =>
        rw [hr] at h
        simp at h
        by_cases hemp : its.isEmpty
        · rw [if_pos hemp] at h
          subst h
          exact groupEntries_nonempty tz now_str rest gs' hr g hg
        · rw [if_neg hemp] at h
          subst h
          cases hg with
          | head => exact fun hc => hemp (by simp [hc])
          | tail _ hmem => exact groupEntries_nonempty tz now_str rest gs' hr g hmem

/-- Flattening and grouping agree entry by entry: the flat list is the
concatenation of the (nonempty-filtered) groups. -/
theorem flattenEntries_eq_join (tz now_str : Py) :
    ∀ es : List Py,
      flattenEntries tz now_str es =
        Except.map List.flatten (groupEntries tz now_str es)
  | [] => by simp [flattenEntries, groupEntries]
  | e :: rest => by
    rw [flattenEntries, groupEntries]
    cases hi : entryItems tz now_str e with
    | error err => simp
    | ok its =>
      simp only [exc_ok_bind]
      rw [flattenEntries_eq_join tz now_str rest]
      cases hr : groupEntries tz now_str rest with
      | error err => simp
      | ok gs' =>
        by_cases hemp : its.isEmpty
        · have : its = [] := by simpa using hemp
          simp [this, hemp]
        · simp [hemp]

/-!
## Claim C8 — empty theaters contribute no group
-/

/-- C8: for every list of dataset entries and date stamp, the grouping
operation omits any configured theater that yields zero movies, so every
produced `TheaterGroup` has length at least 1. -/
theorem C8_groups_nonempty (tz entries now_str : Py) (gs : List (List FlatMovieItem))
    (h : group_movies_by_theater tz entries now_str = Except.ok gs) :
    ∀ g ∈ gs, 0 < g.length := by
  intro g hg
  rw [group_movies_by_theater] at h
  cases hi : entries.iter with
  | error err => rw [hi] at h; simp at h
  | ok es =>
    rw [hi] at h
    simp only [exc_ok_bind] at h
    have := groupEntries_nonempty tz now_str es gs h g hg
    exact List.length_pos.mpr this

/-- Witness for C8: a two-entry dataset whose second theater yields no
movies produces a single, nonempty group. -/
theorem C8_witness :
    group_movies_by_theater Py.none
      (Py.list [c7Entry, Py.dict [("theater_label", Py.str "Empty"), ("showtimes", Py.list [])]])
      (Py.str "2024-01-01") = Except.ok [[c7Item]] ∧ 0 < [c7Item].length :=
  ⟨rfl, C8_groups_nonempty Py.none
    (Py.list [c7Entry, Py.dict [("theater_label", Py.str "Empty"), ("showtimes", Py.list [])]])
    (Py.str "2024-01-01") [[c7Item]] rfl [c7Item] (by simp)⟩

/-!
## Claim C9 — the two flattening paths agree
-/

/-- C9: for every dataset, date stamp and timezone, `flatten_movies`
returns exactly the concatenation of the groups returned by
`group_movies_by_theater` on the same inputs (and the two paths fail
identically). -/
theorem C9_flatten_eq_group_flatten (tz entries now_str : Py) :
    flatten_movies tz entries now_str =
      Except.map List.flatten (group_movies_by_theater tz entries now_str) := by
  rw [flatten_movies, group_movies_by_theater]
  cases hi : entries.iter with
  | error err => simp
  | ok es => simp [flattenEntries_eq_join]

/-!
## Claim C10 — the normalizer returns at most one theater entry
-/

/-- The entry loop of the normalizer produces one output row per input
entry. -/
theorem normEntries_length :
    ∀ (es ns : List Py), normEntries es = Except.ok ns → ns.length = es.length
  | [], ns, h => by simp [normEntries] at h; simp [h]
  | e :: rest, ns, h => by
    rw [normEntries] at h
    cases he : normEntry e with
    | error err => rw [he] at h; simp at h
    | ok r =>
      rw [he] at h
      cases hr : normEntries rest with
      | error err => rw [hr] at h; simp at h
      | ok rs =>
        rw [hr] at h; simp at h
        simp [← h, normEntries_length rest rs hr]

/-- Any normal return of the normalizer is a list of length at most 1. -/
theorem normalize_ok_shape (p r : Py) (h : normalize_showtimes p = Except.ok r) :
    ∃ ns : List Py, r = Py.list ns ∧ ns.length ≤ 1 := by
  rw [normalize_showtimes] at h
  cases hget : p.get "showtimes" with
  | error e => rw [hget] at h; simp at h
  | ok s =>
    rw [hget] at h
    simp only [exc_ok_bind] at h
    cases s with
    | none =>
      simp [pyOr, Py.truthy, Py.iter, normEntries] at h
      exact ⟨[], h.symm, by simp⟩
    | bool b =>
      cases b with
      | false =>
        simp [pyOr, Py.truthy, Py.iter, normEntries] at h
        exact ⟨[], h.symm, by simp⟩
      | true => simp [pyOr, Py.truthy, Py.len] at h
    | int n =>
      by_cases hn : n = 0
      · simp [pyOr, Py.truthy, hn, Py.iter, normEntries] at h
        exact ⟨[], h.symm, by simp⟩
      · simp [pyOr, Py.truthy, hn, Py.len] at h
    | str st =>
      by_cases hst : st = ""
      · simp [pyOr, Py.truthy, hst, Py.iter, normEntries] at h
        exact ⟨[], h.symm, by simp⟩
      · have hd : st.data ≠ [] := fun hd => hst (String.ext (by simp [hd]))
        obtain ⟨c, cs, hcs⟩ : ∃ c cs, st.data = c :: cs := by
          cases hx : st.data with
          | nil => exact absurd hx hd
          | cons c cs => exact ⟨c, cs, rfl⟩
        have hlen : st.length = cs.length + 1 := by
          show st.data.length = cs.length + 1
          simp [hcs]
        simp [pyOr, Py.truthy, hst, Py.len, hlen, Py.index0, hcs, Py.iter, normEntries,
          normEntry, Py.chain, Py.chainRaw] at h
    | list xs =>
      cases xs with
      | nil =>
        simp [pyOr, Py.truthy, Py.iter, normEntries] at h
        exact ⟨[], h.symm, by simp⟩
      | cons x rest =>
        simp only [pyOr, Py.truthy, List.isEmpty_cons, Bool.not_false, if_true,
          Py.len, Py.index0, exc_ok_bind] at h
        simp [Py.iter] at h
        cases hne : normEntries [x] with
        | error err => rw [hne] at h; simp at h
        | ok ns' =>
          rw [hne] at h; simp at h
          refine ⟨ns', h.symm, ?_⟩
          have := normEntries_length [x] ns' hne
          simp at this
          simp [this]
    | dict fs =>
      cases fs with
      | nil =>
        simp [pyOr, Py.truthy, Py.iter, normEntries] at h
        exact ⟨[], h.symm, by simp⟩
      | cons f fs' =>
        simp [pyOr, Py.truthy, Py.len, Py.index0] at h

/-- C10: whenever `normalize_showtimes` returns, the returned value is a
list of length at most 1 — the today-only policy keeps only the first
theater entry of the payload. -/
theorem C10_at_most_one_entry (p r : Py) (h : normalize_showtimes p = Except.ok r) :
    ∃ ns : List Py, r = Py.list ns ∧ ns.length ≤ 1 :=
  normalize_ok_shape p r h

/-- Witness for C10: a two-day payload still normalizes to a single-entry
list. -/
theorem C10_witness :
    normalize_showtimes (Py.dict [("showtimes",
        Py.list [Py.dict [("name", Py.str "T")], Py.dict [("name", Py.str "U")]])]) =
      Except.ok (Py.list [Py.dict [("theater", Py.str "T"), ("address", Py.str ""),
        ("movies", Py.list [])]])
    ∧ ∃ ns : List Py,
        Py.list [Py.dict [("theater", Py.str "T"), ("address", Py.str ""),
          ("movies", Py.list [])]] = Py.list ns ∧ ns.length ≤ 1 :=
  ⟨rfl, C10_at_most_one_entry
    (Py.dict [("showtimes",
      Py.list [Py.dict [("name", Py.str "T")], Py.dict [("name", Py.str "U")]])])
    (Py.list [Py.dict [("theater", Py.str "T"), ("address", Py.str ""),
      ("movies", Py.list [])]]) rfl⟩

/-!
## Claim C4 — only the first showtimes entry / first day-sublist counts
-/

/-- C4: (a) normalizing a payload whose `showtimes` list starts with `x`
gives the same result as normalizing a payload containing only `x` — the
remaining entries never contribute; (b) when a theater entry's movie list
is a list of lists starting with sublist `ys`, the normalized entry does
not depend on the later sublists (two entries agreeing on name and address
chains and on the first sublist normalize identically). -/
theorem C4_first_entry_only :
    (∀ (fs : List (String × Py)) (x : Py) (rest : List Py),
      lookupStr fs "showtimes" = Option.some (Py.list (x :: rest)) →
      normalize_showtimes (Py.dict fs) =
        normalize_showtimes (Py.dict [("showtimes", Py.list [x])]))
    ∧ (∀ (fs fs' : List (String × Py)) (ys : List Py) (rest rest' : List Py),
      chainRawF fs ["theater_name", "name"] = chainRawF fs' ["theater_name", "name"] →
      chainRawF fs ["address", "address_line", "full_address"] =
        chainRawF fs' ["address", "address_line", "full_address"] →
      chainRawF fs ["movies", "showing"] = Py.list (Py.list ys :: rest) →
      chainRawF fs' ["movies", "showing"] = Py.list (Py.list ys :: rest') →
      normEntry (Py.dict fs) = normEntry (Py.dict fs')) := by
  constructor
  · intro fs x rest h
    rw [normalize_showtimes, normalize_showtimes]
    simp [Py.get, h, lookupStr, pyOr, Py.truthy, Py.len, Py.index0, Py.iter]
  · intro fs fs' ys rest rest' hname haddr hm hm'
    rw [normEntry, normEntry]
    simp [Py.chain, Py.chainRaw, hname, haddr, hm, hm', pyOr, Py.truthy, selectFirstDay]

/-- Witness for C4: dropping a second-day theater entry, or the later
day-sublists of a day-partitioned movie list, leaves the output unchanged. -/
theorem C4_witness :
    normalize_showtimes (Py.dict [("showtimes",
        Py.list [Py.dict [("name", Py.str "T")], Py.dict [("name", Py.str "U")]])]) =
      normalize_showtimes (Py.dict [("showtimes", Py.list [Py.dict [("name", Py.str "T")]])])
    ∧ normEntry (Py.dict [("name", Py.str "T"), ("movies",
        Py.list [Py.list [Py.dict [("title", Py.str "M")]],
          Py.list [Py.dict [("title", Py.str "Tomorrow")]]])]) =
      normEntry (Py.dict [("name", Py.str "T"), ("movies",
        Py.list [Py.list [Py.dict [("title", Py.str "M")]]])]) :=
  ⟨C4_first_entry_only.1 [("showtimes",
      Py.list [Py.dict [("name", Py.str "T")], Py.dict [("name", Py.str "U")]])]
      (Py.dict [("name", Py.str "T")]) [Py.dict [("name", Py.str "U")]] rfl,
   C4_first_entry_only.2
      [("name", Py.str "T"), ("movies",
        Py.list [Py.list [Py.dict [("title", Py.str "M")]],
          Py.list [Py.dict [("title", Py.str "Tomorrow")]]])]
      [("name", Py.str "T"), ("movies",
        Py.list [Py.list [Py.dict [("title", Py.str "M")]]])]
      [Py.dict [("title", Py.str "M")]]
      [Py.list [Py.dict [("title", Py.str "Tomorrow")]]] [] rfl rfl rfl rfl⟩

/-!
## Claim C5 — time-entry composition, skipping and truncation
-/

/-- C5: a structured time block with a truthy time value and a truthy
type/format label contributes `"<time> (<type>)"`; with a falsy label it
contributes the bare time value; a plain string block passes through
unchanged; a structured block whose extracted time value is falsy is
skipped; and the movie row keeps exactly the first 8 surviving entries. -/
theorem C5_time_formatting :
    (∀ (fs : List (String × Py)) (rest : List Py) (t ty : String),
      chainRawF fs ["time", "start_time", "start"] = Py.str t → t ≠ "" →
      chainRawF fs ["type", "format", "ticket_type"] = Py.str ty → ty ≠ "" →
      timesOf (Py.dict fs :: rest) = Py.str (t ++ " (" ++ ty ++ ")") :: timesOf rest)
    ∧ (∀ (fs : List (String × Py)) (rest : List Py) (t : String),
      chainRawF fs ["time", "start_time", "start"] = Py.str t → t ≠ "" →
      (chainRawF fs ["type", "format", "ticket_type"]).truthy = false →
      timesOf (Py.dict fs :: rest) = Py.str t :: timesOf rest)
    ∧ (∀ (s : String) (rest : List Py),
      timesOf (Py.str s :: rest) = Py.str s :: timesOf rest)
    ∧ (∀ (fs : List (String × Py)) (rest : List Py),
      (chainRawF fs ["time", "start_time", "start"]).truthy = false →
      timesOf (Py.dict fs :: rest) = timesOf rest)
    ∧ (∀ (fs : List (String × Py)) (tbs : List Py),
      chainRawF fs ["showtimes", "times", "showing"] = Py.list tbs →
      normMovie (Py.dict fs) =
        Except.ok (Py.dict [("title",
          pyOr (chainRawF fs ["title", "name", "film_name"]) (Py.str "(title unknown)")),
          ("times", Py.list ((timesOf tbs).take 8))])) := by
  refine ⟨?_, ?_, ?_, ?_, ?_⟩
  · intro fs rest t ty h1 ht h2 hty
    rw [timesOf]
    simp [h1, h2, pyOr, Py.truthy, Py.pyStr, ht, hty]
  · intro fs rest t h1 ht h2
    rw [timesOf, h1]
    simp only [h2]
    simp [pyOr, Py.truthy, ht]
  · intro s rest
    rw [timesOf]
    rfl
  · intro fs rest h
    rw [timesOf]
    simp only [pyOr, h]
    simp [Py.truthy]
  · intro fs tbs h
    rw [normMovie]
    cases tbs with
    | nil => simp [Py.chain, Py.chainRaw, h, pyOr, Py.truthy, Py.iter, timesOf]
    | cons a l => simp [Py.chain, Py.chainRaw, h, pyOr, Py.truthy, Py.iter]

/-- Witness for C5: each formatting rule evaluated on a concrete block,
and a ten-entry time list truncated to eight. -/
theorem C5_witness :
    timesOf [Py.dict [("time", Py.str "7:30 PM"), ("type", Py.str "IMAX")]] =
      [Py.str "7:30 PM (IMAX)"]
    ∧ timesOf [Py.dict [("time", Py.str "7:30 PM")]] = [Py.str "7:30 PM"]
    ∧ timesOf [Py.str "9:00 PM"] = [Py.str "9:00 PM"]
    ∧ timesOf [Py.dict [("note", Py.str "x")]] = []
    ∧ normMovie (Py.dict [("title", Py.str "M"), ("times", Py.list
        [Py.str "1", Py.str "2", Py.str "3", Py.str "4", Py.str "5", Py.str "6",
         Py.str "7", Py.str "8", Py.str "9", Py.str "10"])]) =
      Except.ok (Py.dict [("title", Py.str "M"), ("times", Py.list
        [Py.str "1", Py.str "2", Py.str "3", Py.str "4", Py.str "5", Py.str "6",
         Py.str "7", Py.str "8"])]) :=
  ⟨C5_time_formatting.1 [("time", Py.str "7:30 PM"), ("type", Py.str "IMAX")] []
      "7:30 PM" "IMAX" rfl (by decide) rfl (by decide),
   C5_time_formatting.2.1 [("time", Py.str "7:30 PM")] [] "7:30 PM" rfl (by decide) rfl,
   C5_time_formatting.2.2.1 "9:00 PM" [],
   C5_time_formatting.2.2.2.1 [("note", Py.str "x")] [] rfl,
   C5_time_formatting.2.2.2.2 [("title", Py.str "M"), ("times", Py.list
        [Py.str "1", Py.str "2", Py.str "3", Py.str "4", Py.str "5", Py.str "6",
         Py.str "7", Py.str "8", Py.str "9", Py.str "10"])]
      [Py.str "1", Py.str "2", Py.str "3", Py.str "4", Py.str "5", Py.str "6",
       Py.str "7", Py.str "8", Py.str "9", Py.str "10"] rfl⟩

/-!
## Claim C6 — normalizer robustness

The claim as stated is false: several wrong-typed payloads make the code
raise (`len` of a number, iterating a number, `.get` on a non-dict).  The
lemmas below prove the amended claim: on payloads whose accessed fields
are well-typed, the normalizer never raises and returns a list.
-/

/-- Counterexample to C6 as stated: for the payload `{"showtimes": 7}` the
code reaches `len(theaters)` with a number and raises `TypeError`, so
`normalize_showtimes` does not return a list for every input value. -/
theorem C6_counterexample :
    normalize_showtimes (Py.dict [("showtimes", Py.int 7)]) =
      Except.error PyErr.typeError := rfl
theorem excIsOk_exists {α : Type} (e : Except PyErr α) (h : excIsOk e = true) :
    ∃ a, e = Except.ok a := by
  cases e with
  | ok a => exact ⟨a, rfl⟩
  | error err => simp [excIsOk] at h

theorem wfTimeField_iter (v : Py) (h : wfTimeField v = true) :
    excIsOk ((pyOr v (Py.list [])).iter) = true := by
  cases v with
  | list xs => by_cases hx : (Py.list xs).truthy <;> simp [pyOr, hx, Py.iter, excIsOk]
  | str s => by_cases hx : (Py.str s).truthy <;> simp [pyOr, hx, Py.iter, excIsOk]
  | dict fs => by_cases hx : (Py.dict fs).truthy <;> simp [pyOr, hx, Py.iter, excIsOk]
  | none => simp [pyOr, Py.truthy, Py.iter, excIsOk]
  | bool b =>
    simp [wfTimeField, Py.truthy] at h
    simp [h, pyOr, Py.truthy, Py.iter, excIsOk]
  | int n =>
    simp [wfTimeField, Py.truthy] at h
    simp [h, pyOr, Py.truthy, Py.iter, excIsOk]

theorem normMovie_isOk (m : Py) (h : wfMovie m = true) : excIsOk (normMovie m) = true := by
  cases m with
  | dict fs =>
    rw [wfMovie] at h
    obtain ⟨tbs, htbs⟩ := excIsOk_exists _ (wfTimeField_iter _ h)
    rw [normMovie]
    simp [Py.chain, Py.chainRaw, htbs, excIsOk]
  | none => simp [wfMovie] at h
  | bool b => simp [wfMovie] at h
  | int n => simp [wfMovie] at h
  | str s => simp [wfMovie] at h
  | list xs => simp [wfMovie] at h

theorem normMovies_isOk :
    ∀ ms : List Py, ms.all wfMovie = true → excIsOk (normMovies ms) = true
  | [], _ => by simp [normMovies, excIsOk]
  | m :: rest, h => by
    simp only [List.all_cons, Bool.and_eq_true] at h
    obtain ⟨r, hr⟩ := excIsOk_exists _ (normMovie_isOk m h.1)
    obtain ⟨rs, hrs⟩ := excIsOk_exists _ (normMovies_isOk rest h.2)
    rw [normMovies]
    simp [hr, hrs, excIsOk]

theorem normEntry_isOk (e : Py) (h : wfEntry e = true) : excIsOk (normEntry e) = true := by
  cases e with
  | dict fs =>
    rw [wfEntry] at h
    cases hsel : selectFirstDay (pyOr (chainRawF fs ["movies", "showing"]) (Py.list [])) with
    | list ms =>
      rw [hsel] at h
      obtain ⟨rs, hrs⟩ := excIsOk_exists _ (normMovies_isOk ms h)
      rw [normEntry]
      simp [Py.chain, Py.chainRaw, hsel, Py.iter, hrs, excIsOk]
    | none => rw [hsel] at h; simp at h
    | bool b => rw [hsel] at h; simp at h
    | int n => rw [hsel] at h; simp at h
    | str s => rw [hsel] at h; simp at h
    | dict gs => rw [hsel] at h; simp at h
  | none => simp [wfEntry] at h
  | bool b => simp [wfEntry] at h
  | int n => simp [wfEntry] at h
  | str s => simp [wfEntry] at h
  | list xs => simp [wfEntry] at h

theorem normalize_isOk (p : Py) (h : wfPayload p = true) :
    excIsOk (normalize_showtimes p) = true := by
  cases p with
  | dict fs =>
    rw [wfPayload] at h
    rw [normalize_showtimes]
    cases hs : pyOr ((lookupStr fs "showtimes").getD Py.none) (Py.list []) with
    | list es =>
      rw [hs] at h
      cases es with
      | nil => simp [Py.get, hs, Py.truthy, Py.iter, normEntries, excIsOk]
      | cons e rest =>
        obtain ⟨r, hr⟩ := excIsOk_exists _ (normEntry_isOk e h)
        simp [Py.get, hs, Py.truthy, Py.len, Py.index0, Py.iter, normEntries, hr, excIsOk]
    | none => rw [hs] at h; simp at h
    | bool b => rw [hs] at h; simp at h
    | int n => rw [hs] at h; simp at h
    | str s => rw [hs] at h; simp at h
    | dict gs => rw [hs] at h; simp at h
  | none => simp [wfPayload] at h
  | bool b => simp [wfPayload] at h
  | int n => simp [wfPayload] at h
  | str s => simp [wfPayload] at h
  | list xs => simp [wfPayload] at h

/-- C6 (amended): for every payload whose accessed fields are well-typed
(`wfPayload`), `normalize_showtimes` raises no exception and returns a
(possibly empty) list; missing or falsy fields degrade to the documented
defaults rather than failing. -/
theorem C6_wf_never_raises (p : Py) (h : wfPayload p = true) :
    ∃ ns : List Py, normalize_showtimes p = Except.ok (Py.list ns) := by
  obtain ⟨r, hr⟩ := excIsOk_exists _ (normalize_isOk p h)
  obtain ⟨ns, hns, _⟩ := normalize_ok_shape p r hr
  exact ⟨ns, hns ▸ hr⟩

/-- Witness for C6: a payload with a movie row carrying none of the
expected fields is well-typed and normalizes without an exception. -/
theorem C6_witness :
    wfPayload (Py.dict [("showtimes", Py.list [Py.dict [("movies",
        Py.list [Py.dict [("x", Py.int 0)]])]])]) = true
    ∧ ∃ ns : List Py,
        normalize_showtimes (Py.dict [("showtimes", Py.list [Py.dict [("movies",
          Py.list [Py.dict [("x", Py.int 0)]])]])]) = Except.ok (Py.list ns) :=
  ⟨rfl, C6_wf_never_raises (Py.dict [("showtimes", Py.list [Py.dict [("movies",
    Py.list [Py.dict [("x", Py.int 0)]])]])]) rfl⟩

/-!
## Claim C7 — configured label precedence over payload names

The claim as stated fails when the configured label is falsy: the code
then substitutes the literal `"Unknown Theater"`, which is neither the
configured label nor the payload name.  The amended claim — the display
name is determined by the configured label alone (label when truthy, the
literal otherwise) and never by the payload theater name — holds on both
flattening paths.
-/

/-- Counterexample to C7 as stated: for a dataset entry whose configured
`theater_label` is `""` and whose payload carries the theater name
`"Real Name"`, the produced item has `theater_name = "Unknown Theater"`,
which is not the configured theater label of the entry. -/
theorem C7_counterexample :
    group_movies_by_theater Py.none (Py.list [c7Entry]) (Py.str "2024-01-01") =
      Except.ok [[c7Item]]
    ∧ c7Item.theater_name ≠ c7Item.theater_label := by
  constructor
  · rfl
  · simp [c7Item]
theorem movieItems_name (tz now_str tl ll tn ad : Py) :
    ∀ (ms : List Py) (its : List FlatMovieItem),
      movieItems tz now_str tl ll tn ad ms = Except.ok its →
      ∀ it ∈ its, it.theater_label = tl ∧ it.theater_name = tn
  | [], its, h => by
    have hnil : its = [] := by simpa [movieItems] using h.symm
    subst hnil
    intro it hit
    simp at hit
  | m :: rest, its, h => by
    rw [movieItems] at h
    cases h1 : m.chain ["title"] (Py.str "(title unknown)") with
    | error e => rw [h1] at h; simp at h
    | ok title =>
      rw [h1] at h
      simp only [exc_ok_bind] at h
      cases h2 : m.chain ["times"] (Py.list []) with
      | error e => rw [h2] at h; simp at h
      | ok times =>
        rw [h2] at h
        simp only [exc_ok_bind] at h
        cases h3 : movieItems tz now_str tl ll tn ad rest with
        | error e => rw [h3] at h; simp at h
        | ok rs =>
          rw [h3] at h
          simp only [exc_ok_bind, exc_pure] at h
          have hcons := Except.ok.inj h
          intro it hit
          rw [← hcons] at hit
          cases hit with
          | head => exact ⟨rfl, rfl⟩
          | tail _ hmem => exact movieItems_name tz now_str tl ll tn ad rest rs h3 it hmem

theorem theaterItems_name (tz now_str tl ll : Py) :
    ∀ (ths : List Py) (its : List FlatMovieItem),
      theaterItems tz now_str tl ll ths = Except.ok its →
      ∀ it ∈ its, it.theater_name = pyOr it.theater_label (Py.str "Unknown Theater")
  | [], its, h => by
    have hnil : its = [] := by simpa [theaterItems] using h.symm
    subst hnil
    intro it hit
    simp at hit
  | th :: rest, its, h => by
    rw [theaterItems] at h
    cases h1 : th.chain ["address"] (Py.str "") with
    | error e => rw [h1] at h; simp at h
    | ok ad =>
      rw [h1] at h
      simp only [exc_ok_bind] at h
      cases h2 : th.getD "movies" (Py.list []) with
      | error e => rw [h2] at h; simp at h
      | ok movies =>
        rw [h2] at h
        simp only [exc_ok_bind] at h
        cases h3 : movies.iter with
        | error e => rw [h3] at h; simp at h
        | ok ms =>
          rw [h3] at h
          simp only [exc_ok_bind] at h
          cases h4 : movieItems tz now_str tl ll (pyOr tl (Py.str "Unknown Theater")) ad ms with
          | error e => rw [h4] at h; simp at h
          | ok items =>
            rw [h4] at h
            simp only [exc_ok_bind] at h
            cases h5 : theaterItems tz now_str tl ll rest with
            | error e => rw [h5] at h; simp at h
            | ok rs =>
              rw [h5] at h
              simp only [exc_ok_bind, exc_pure] at h
              have happ := Except.ok.inj h
              intro it hit
              rw [← happ] at hit
              rcases List.mem_append.mp hit with hml | hmr
              · obtain ⟨hlab, hname⟩ :=
                  movieItems_name tz now_str tl ll (pyOr tl (Py.str "Unknown Theater")) ad ms
                    items h4 it hml
                rw [hname, hlab]
              · exact theaterItems_name tz now_str tl ll rest rs h5 it hmr

theorem entryItems_name (tz now_str e : Py) (its : List FlatMovieItem)
    (h : entryItems tz now_str e = Except.ok its) :
    ∀ it ∈ its, it.theater_name = pyOr it.theater_label (Py.str "Unknown Theater") := by
  rw [entryItems] at h
  cases h1 : e.getD "theater_label" (Py.str "") with
  | error err => rw [h1] at h; simp at h
  | ok tl =>
    rw [h1] at h
    simp only [exc_ok_bind] at h
    cases h2 : e.getD "location_label" (Py.str "") with
    | error err => rw [h2] at h; simp at h
    | ok ll =>
      rw [h2] at h
      simp only [exc_ok_bind] at h
      cases h3 : e.getD "showtimes" (Py.list []) with
      | error err => rw [h3] at h; simp at h
      | ok sts =>
        rw [h3] at h
        simp only [exc_ok_bind] at h
        cases h4 : sts.iter with
        | error err => rw [h4] at h; simp at h
        | ok ths =>
          rw [h4] at h
          simp only [exc_ok_bind] at h
          exact theaterItems_name tz now_str tl ll ths its h

theorem groupEntries_name (tz now_str : Py) :
    ∀ (es : List Py) (gs : List (List FlatMovieItem)),
      groupEntries tz now_str es = Except.ok gs →
      ∀ g ∈ gs, ∀ it ∈ g,
        it.theater_name = pyOr it.theater_label (Py.str "Unknown Theater")
  | [], gs, h => by
    have hnil : gs = [] := by simpa [groupEntries] using h.symm
    subst hnil
    intro g hg
    simp at hg
  | e :: rest, gs, h => by
    rw [groupEntries] at h
    cases h1 : entryItems tz now_str e with
    | error err => rw [h1] at h; simp at h
    | ok its =>
      rw [h1] at h
      simp only [exc_ok_bind] at h
      cases h2 : groupEntries tz now_str rest with
      | error err => rw [h2] at h; simp at h
      | ok gs' =>
        rw [h2] at h
        simp only [exc_ok_bind, exc_pure] at h
        have hgs := Except.ok.inj h
        intro g hg it hit
        rw [← hgs] at hg
        by_cases hemp : its.isEmpty
        · rw [if_pos hemp] at hg
          exact groupEntries_name tz now_str rest gs' h2 g hg it hit
        · rw [if_neg hemp] at hg
          cases hg with
          | head => exact entryItems_name tz now_str e its h1 it hit
          | tail _ hmem => exact groupEntries_name tz now_str rest gs' h2 g hmem it hit

theorem flattenEntries_name (tz now_str : Py) :
    ∀ (es : List Py) (its : List FlatMovieItem),
      flattenEntries tz now_str es = Except.ok its →
      ∀ it ∈ its, it.theater_name = pyOr it.theater_label (Py.str "Unknown Theater")
  | [], its, h => by
    have hnil : its = [] := by simpa [flattenEntries] using h.symm
    subst hnil
    intro it hit
    simp at hit
  | e :: rest, its, h => by
    rw [flattenEntries] at h
    cases h1 : entryItems tz now_str e with
    | error err => rw [h1] at h; simp at h
    | ok items =>
      rw [h1] at h
      simp only [exc_ok_bind] at h
      cases h2 : flattenEntries tz now_str rest with
      | error err => rw [h2] at h; simp at h
      | ok rs =>
        rw [h2] at h
        simp only [exc_ok_bind, exc_pure] at h
        have happ := Except.ok.inj h
        intro it hit
        rw [← happ] at hit
        rcases List.mem_append.mp hit with hml | hmr
        · exact entryItems_name tz now_str e items h1 it hml
        · exact flattenEntries_name tz now_str rest rs h2 it hmr

/-- C7 (amended): on both flattening paths, every produced item's
`theater_name` equals its configured `theater_label` whenever that label is
truthy, and the literal `"Unknown Theater"` otherwise — it never comes
from the name parsed out of the API payload. -/
theorem C7_label_precedence :
    (∀ (tz entries now_str : Py) (gs : List (List FlatMovieItem)),
      group_movies_by_theater tz entries now_str = Except.ok gs →
      ∀ g ∈ gs, ∀ it ∈ g,
        it.theater_name = pyOr it.theater_label (Py.str "Unknown Theater"))
    ∧ (∀ (tz entries now_str : Py) (its : List FlatMovieItem),
      flatten_movies tz entries now_str = Except.ok its →
      ∀ it ∈ its, it.theater_name = pyOr it.theater_label (Py.str "Unknown Theater")) := by
  constructor
  · intro tz entries now_str gs h
    rw [group_movies_by_theater] at h
    cases hi : entries.iter with
    | error err => rw [hi] at h; simp at h
    | ok es =>
      rw [hi] at h
      simp only [exc_ok_bind] at h
      exact groupEntries_name tz now_str es gs h
  · intro tz entries now_str its h
    rw [flatten_movies] at h
    cases hi : entries.iter with
    | error err => rw [hi] at h; simp at h
    | ok es =>
      rw [hi] at h
      simp only [exc_ok_bind] at h
      exact flattenEntries_name tz now_str es its h

/-- Witness for C7: with a truthy configured label `"Lab"` and a payload
name `"Real"`, the produced item displays `"Lab"`. -/
theorem C7_witness :
    group_movies_by_theater Py.none
      (Py.list [Py.dict [("theater_label", Py.str "Lab"),
        ("showtimes", Py.list [Py.dict [("theater", Py.str "Real"),
          ("movies", Py.list [Py.dict [("title", Py.str "M")]])]])]])
      (Py.str "D") =
      Except.ok [[⟨Py.str "Lab", Py.str "", Py.str "Lab", Py.str "", Py.str "M",
        Py.list [], Py.str "D", Py.none⟩]]
    ∧ (⟨Py.str "Lab", Py.str "", Py.str "Lab", Py.str "", Py.str "M",
        Py.list [], Py.str "D", Py.none⟩ : FlatMovieItem).theater_name =
      pyOr (Py.str "Lab") (Py.str "Unknown Theater") :=
  ⟨rfl, C7_label_precedence.1 Py.none
    (Py.list [Py.dict [("theater_label", Py.str "Lab"),
      ("showtimes", Py.list [Py.dict [("theater", Py.str "Real"),
        ("movies", Py.list [Py.dict [("title", Py.str "M")]])]])]])
    (Py.str "D")
    [[⟨Py.str "Lab", Py.str "", Py.str "Lab", Py.str "", Py.str "M",
      Py.list [], Py.str "D", Py.none⟩]] rfl
    [⟨Py.str "Lab", Py.str "", Py.str "Lab", Py.str "", Py.str "M",
      Py.list [], Py.str "D", Py.none⟩] (by simp)
    ⟨Py.str "Lab", Py.str "", Py.str "Lab", Py.str "", Py.str "M",
      Py.list [], Py.str "D", Py.none⟩ (by simp)⟩

/-!
## Claim C1 — cache policy of `load_entries_for_today`

The claim's dichotomy (same-day cache hit, otherwise fetch) fails for one
family of inputs: a readable cache file holding a *truthy non-object* JSON
value (e.g. the array `[1]`).  The code calls `.get` on it and raises
`AttributeError` instead of fetching.  On all other inputs the claimed
policy holds, including that the fetch collaborator's outcome is never
consulted on a same-day hit.
-/

/-- Counterexample to C1 as stated: with the cache file holding the JSON
array `[1]` (readable, truthy, not an object), `load_entries_for_today`
raises `AttributeError` — it neither returns cached entries nor performs
the fetch-and-persist branch the claim requires in its "otherwise" arm. -/
theorem C1_counterexample :
    load_entries_for_today "2024-01-01" (Option.some (Py.list [Py.int 1])) "cache.json"
      (Except.ok (Py.list [])) = Except.error PyErr.attributeError
    ∧ (Except.error PyErr.attributeError : Except PyErr LoadResult) ≠
      Except.ok ⟨Py.list [], Py.str "2024-01-01", true,
        save_cached "cache.json" "2024-01-01" (Py.list [])⟩ :=
  ⟨rfl, by simp⟩
/-- C1 (amended): (a) when the loaded cache document is a truthy object
whose `date` field equals today's date string, the cached entries are
returned with no fetch call and no write — whatever the fetch outcome
would have been; (b) when the document is absent or falsy, and (c) when it
is an object with a different (or missing) `date`, the code performs the
fetch, persists the result under today's date, and returns it.  (A truthy
non-object document instead raises `AttributeError`; see the
counterexample.) -/
theorem C1_cache_policy (today path : String) (content : Option Py) (fr : Except PyErr Py)
    (fresh : Py) (fs : List (String × Py)) :
    (load_cached content path = Option.some (Py.dict fs) →
      (Py.dict fs).truthy = true →
      ((lookupStr fs "date").getD Py.none).eqStr today = true →
      load_entries_for_today today content path fr =
        Except.ok ⟨pyOr ((lookupStr fs "entries").getD Py.none) (Py.list []),
          (lookupStr fs "date").getD (Py.str today), false, Option.none⟩)
    ∧ ((∀ doc, load_cached content path = Option.some doc → doc.truthy = false) →
      load_entries_for_today today content path (Except.ok fresh) =
        Except.ok ⟨fresh, Py.str today, true, save_cached path today fresh⟩)
    ∧ (load_cached content path = Option.some (Py.dict fs) →
      ((lookupStr fs "date").getD Py.none).eqStr today = false →
      load_entries_for_today today content path (Except.ok fresh) =
        Except.ok ⟨fresh, Py.str today, true, save_cached path today fresh⟩) := by
  refine ⟨?_, ?_, ?_⟩
  · intro h1 h2 h3
    rw [load_entries_for_today.eq_def, h1]
    simp [h2, Py.get, h3, Py.getD]
  · intro hall
    rw [load_entries_for_today.eq_def]
    cases hl : load_cached content path with
    | none => rfl
    | some doc =>
      have hf := hall doc hl
      simp [hf]
  · intro h1 h3
    rw [load_entries_for_today.eq_def, h1]
    by_cases h2 : (Py.dict fs).truthy
    · simp [h2, Py.get, h3]
    · simp [h2]

/-- Witness for C1: a same-day cache hit returns the cached entries even
though the fetch collaborator would fail, and an absent cache file routes
to fetch-persist-return. -/
theorem C1_witness :
    load_entries_for_today "2024-01-01"
      (Option.some (Py.dict [("date", Py.str "2024-01-01"), ("entries", Py.list [Py.int 5])]))
      "cache.json" (Except.error PyErr.runtimeError) =
      Except.ok ⟨Py.list [Py.int 5], Py.str "2024-01-01", false, Option.none⟩
    ∧ load_entries_for_today "2024-01-02" Option.none "cache.json"
        (Except.ok (Py.list [Py.int 7])) =
      Except.ok ⟨Py.list [Py.int 7], Py.str "2024-01-02", true,
        Option.some ("2024-01-02", Py.list [Py.int 7])⟩
    ∧ load_entries_for_today "2024-01-02"
        (Option.some (Py.dict [("date", Py.str "2024-01-01")])) "cache.json"
        (Except.ok (Py.list [Py.int 9])) =
      Except.ok ⟨Py.list [Py.int 9], Py.str "2024-01-02", true,
        Option.some ("2024-01-02", Py.list [Py.int 9])⟩ :=
  ⟨(C1_cache_policy "2024-01-01" "cache.json"
      (Option.some (Py.dict [("date", Py.str "2024-01-01"), ("entries", Py.list [Py.int 5])]))
      (Except.error PyErr.runtimeError) Py.none
      [("date", Py.str "2024-01-01"), ("entries", Py.list [Py.int 5])]).1 rfl rfl rfl,
   (C1_cache_policy "2024-01-02" "cache.json" Option.none
      (Except.ok (Py.list [Py.int 7])) (Py.list [Py.int 7]) []).2.1
      (fun doc h => by simp [load_cached] at h),
   (C1_cache_policy "2024-01-02" "cache.json"
      (Option.some (Py.dict [("date", Py.str "2024-01-01")]))
      (Except.ok (Py.list [Py.int 9])) (Py.list [Py.int 9])
      [("date", Py.str "2024-01-01")]).2.2 rfl rfl⟩

/-!
## Claim C3 — render/sleep exceptions never kill the loop
-/

/-- C3: in an iteration with a fresh same-day cache (no refresh) and
well-formed groups, an exception raised by the render sink or by the
cycle-delay sleep is caught by the loop's handler whenever it is a Python
`Exception`: the iteration reports it, backs off 5 time units, and
continues with the state unchanged.  Only a non-`Exception` interrupt
(`KeyboardInterrupt`) escapes the loop. -/
theorem C3_render_error_contained (cfg : RunConfig) (env : Env) (st : LoopState)
    (fs : List (String × Py)) (e : PyErr)
    (hcache : load_cached env.cacheContent cfg.cache_path = Option.some (Py.dict fs))
    (hne : (Py.dict fs).truthy = true)
    (hdate : ((lookupStr fs "date").getD Py.none).eqStr env.current_date = true)
    (hg : st.theater_groups ≠ [])
    (hgs : ∀ g ∈ st.theater_groups, g ≠ [])
    (hr : env.renderResult = Option.some e ∨
      (env.renderResult = Option.none ∧ env.sleepResult = Option.some e)) :
    loopIter cfg env st =
      (if e.isException then Except.ok (st, StepEvent.displayError 5)
       else Except.error e) := by
  have hlen : st.theater_groups.length ≠ 0 := by
    simpa [List.length_eq_zero] using hg
  have hpos : 0 < st.theater_groups.length := Nat.pos_of_ne_zero hlen
  have htin : st.theater_idx % st.theater_groups.length < st.theater_groups.length :=
    Nat.mod_lt _ hpos
  have hgetd :
      st.theater_groups.getD (st.theater_idx % st.theater_groups.length) [] =
        st.theater_groups[st.theater_idx % st.theater_groups.length] := by
    simp [List.getD_eq_getElem?_getD, List.getElem?_eq_getElem htin]
  have hcurmem :
      st.theater_groups[st.theater_idx % st.theater_groups.length] ∈ st.theater_groups :=
    List.getElem_mem htin
  have hcurlen :
      (st.theater_groups.getD (st.theater_idx % st.theater_groups.length) []).length ≠ 0 := by
    rw [hgetd]
    simpa [List.length_eq_zero] using hgs _ hcurmem
  rw [loopIter, hcache]
  simp only [hne, if_true]
  rw [displayStep]
  simp only [Py.get, hdate, Bool.not_true, if_neg hlen, if_neg hcurlen]
  rcases hr with hrr | ⟨hrn, hrs⟩
  · rw [hrr]
  · rw [hrn, hrs]

/-- Witness for C3: a `TypeError` during render is absorbed into a
5-second backoff with unchanged state, while a `KeyboardInterrupt`
propagates. -/
theorem C3_witness :
    loopIter ⟨"c.json", Py.none, 10⟩
      ⟨"2024-01-02", Option.some (Py.dict [("date", Py.str "2024-01-02")]),
        Except.ok (Py.list []), Option.some PyErr.typeError, Option.none⟩
      ⟨Py.list [], Py.str "2024-01-02", [[emptyFlat]], 0, 0⟩ =
      Except.ok (⟨Py.list [], Py.str "2024-01-02", [[emptyFlat]], 0, 0⟩,
        StepEvent.displayError 5)
    ∧ loopIter ⟨"c.json", Py.none, 10⟩
        ⟨"2024-01-02", Option.some (Py.dict [("date", Py.str "2024-01-02")]),
          Except.ok (Py.list []), Option.some PyErr.keyboardInterrupt, Option.none⟩
        ⟨Py.list [], Py.str "2024-01-02", [[emptyFlat]], 0, 0⟩ =
      Except.error PyErr.keyboardInterrupt :=
  ⟨C3_render_error_contained ⟨"c.json", Py.none, 10⟩
      ⟨"2024-01-02", Option.some (Py.dict [("date", Py.str "2024-01-02")]),
        Except.ok (Py.list []), Option.some PyErr.typeError, Option.none⟩
      ⟨Py.list [], Py.str "2024-01-02", [[emptyFlat]], 0, 0⟩
      [("date", Py.str "2024-01-02")] PyErr.typeError rfl rfl rfl (by simp)
      (by simp) (Or.inl rfl),
   C3_render_error_contained ⟨"c.json", Py.none, 10⟩
      ⟨"2024-01-02", Option.some (Py.dict [("date", Py.str "2024-01-02")]),
        Except.ok (Py.list []), Option.some PyErr.keyboardInterrupt, Option.none⟩
      ⟨Py.list [], Py.str "2024-01-02", [[emptyFlat]], 0, 0⟩
      [("date", Py.str "2024-01-02")] PyErr.keyboardInterrupt rfl rfl rfl (by simp)
      (by simp) (Or.inl rfl)⟩

/-!
## Claim C2 — the rotation cursor over group sizes `[2,3]`
-/

/-- Under the fresh same-day cache of `c2Env` the loop body skips the
refresh section entirely. -/
theorem c2_iter_display (st : LoopState) :
    loopIter c2Cfg c2Env st = displayStep c2Cfg c2Env st := rfl

/-- Step from `(2t, 0)`: shows group 0 item 0, advances to `(2t, 1)`. -/
theorem c2_s1 (en d : Py) (t : Nat) :
    displayStep c2Cfg c2Env ⟨en, d, c2Groups, 2 * t, 0⟩ =
      Except.ok (⟨en, d, c2Groups, 2 * t, 1⟩, .displayed (c2Item "A0") 10) := by
  rw [displayStep]
  simp [c2Groups, c2Env, c2Cfg, Nat.mul_mod_right]

/-- Step from `(2t, 1)`: shows group 0 item 1 and wraps to theater `2t+1`. -/
theorem c2_s2 (en d : Py) (t : Nat) :
    displayStep c2Cfg c2Env ⟨en, d, c2Groups, 2 * t, 1⟩ =
      Except.ok (⟨en, d, c2Groups, 2 * t + 1, 0⟩, .displayed (c2Item "A1") 10) := by
  rw [displayStep]
  simp [c2Groups, c2Env, c2Cfg, Nat.mul_mod_right]

/-- Step from `(2t+1, 0)`: shows group 1 item 0. -/
theorem c2_s3 (en d : Py) (t : Nat) :
    displayStep c2Cfg c2Env ⟨en, d, c2Groups, 2 * t + 1, 0⟩ =
      Except.ok (⟨en, d, c2Groups, 2 * t + 1, 1⟩, .displayed (c2Item "B0") 10) := by
  rw [displayStep]
  have h : (2 * t + 1) % 2 = 1 := by omega
  simp [c2Groups, c2Env, c2Cfg, h]

/-- Step from `(2t+1, 1)`: shows group 1 item 1. -/
theorem c2_s4 (en d : Py) (t : Nat) :
    displayStep c2Cfg c2Env ⟨en, d, c2Groups, 2 * t + 1, 1⟩ =
      Except.ok (⟨en, d, c2Groups, 2 * t + 1, 2⟩, .displayed (c2Item "B1") 10) := by
  rw [displayStep]
  have h : (2 * t + 1) % 2 = 1 := by omega
  simp [c2Groups, c2Env, c2Cfg, h]

/-- Step from `(2t+1, 2)`: shows group 1 item 2 and wraps to theater
`2t+2`, whose resolved group is again group 0. -/
theorem c2_s5 (en d : Py) (t : Nat) :
    displayStep c2Cfg c2Env ⟨en, d, c2Groups, 2 * t + 1, 2⟩ =
      Except.ok (⟨en, d, c2Groups, 2 * t + 2, 0⟩, .displayed (c2Item "B2") 10) := by
  rw [displayStep]
  have h : (2 * t + 1) % 2 = 1 := by omega
  simp [c2Groups, c2Env, c2Cfg, h]

/-- Five successive iterations from any even theater cursor visit all
five items in order and shift the theater counter by 2. -/
theorem c2_block (en d : Py) (t : Nat) :
    runLoop c2Cfg c2Env 5 ⟨en, d, c2Groups, 2 * t, 0⟩ =
      Except.ok (⟨en, d, c2Groups, 2 * t + 2, 0⟩,
        [.displayed (c2Item "A0") 10, .displayed (c2Item "A1") 10,
         .displayed (c2Item "B0") 10, .displayed (c2Item "B1") 10,
         .displayed (c2Item "B2") 10]) := by
  simp [runLoop, c2_iter_display, c2_s1, c2_s2, c2_s3, c2_s4, c2_s5]

/-- Loop runs compose: `a + b` iterations are `a` iterations followed by
`b` iterations, with the event logs concatenated. -/
theorem runLoop_add (cfg : RunConfig) (env : Env) :
    ∀ (a b : Nat) (st : LoopState),
      runLoop cfg env (a + b) st =
        match runLoop cfg env a st with
        | .error e => .error e
        | .ok (st1, evs) =>
          match runLoop cfg env b st1 with
          | .error e => .error e
          | .ok (st2, evs2) => .ok (st2, evs ++ evs2)
  | 0, b, st => by
    rw [Nat.zero_add, runLoop]
    simp only [List.nil_append]
    cases hb : runLoop cfg env b st with
    | error e => simp [hb]
    | ok p => simp [hb]
  | a + 1, b, st => by
    rw [Nat.succ_add, runLoop, runLoop]
    cases hi : loopIter cfg env st with
    | error e => simp
    | ok p =>
      obtain ⟨st1, ev⟩ := p
      dsimp only
      rw [runLoop_add cfg env a b st1]
      cases ha : runLoop cfg env a st1 with
      | error e => simp
      | ok q =>
        obtain ⟨st2, evs⟩ := q
        dsimp only
        cases hb : runLoop cfg env b st2 with
        | error e => simp [hb]
        | ok r => simp [hb]

/-- The visit sequence is periodic: `5k` iterations produce `k` exact
copies of the five-item visit pattern. -/
theorem c2_cycle (en d : Py) :
    ∀ (k t : Nat),
      runLoop c2Cfg c2Env (5 * k) ⟨en, d, c2Groups, 2 * t, 0⟩ =
        Except.ok (⟨en, d, c2Groups, 2 * (t + k), 0⟩,
          List.flatten (List.replicate k
            [.displayed (c2Item "A0") 10, .displayed (c2Item "A1") 10,
             .displayed (c2Item "B0") 10, .displayed (c2Item "B1") 10,
             .displayed (c2Item "B2") 10]))
  | 0, t => by simp [runLoop]
  | k + 1, t => by
    have h5 : 5 * (k + 1) = 5 + 5 * k := by ring
    rw [h5, runLoop_add c2Cfg c2Env 5 (5 * k), c2_block en d t]
    dsimp only
    have h2 : 2 * t + 2 = 2 * (t + 1) := by ring
    rw [h2, c2_cycle en d k (t + 1)]
    dsimp only
    have h3 : t + 1 + k = t + (k + 1) := by omega
    rw [h3]
    simp [List.replicate_succ]

/-- C2: for the `[2,3]` dataset starting at cursor `(0,0)` with no
refresh, the displayed items are group 0 item 0, group 0 item 1, group 1
item 0, group 1 item 1, group 1 item 2, then group 0 item 0 again; the
five items are pairwise distinct (each visited exactly once per cycle),
the group sizes are `[2,3]`, and the cycle repeats with period 5 forever. -/
theorem C2_rotation_cycle :
    runLoop c2Cfg c2Env 6 c2St =
      Except.ok (⟨Py.list [], Py.str "2024-01-02", c2Groups, 2, 1⟩,
        [.displayed (c2Item "A0") 10, .displayed (c2Item "A1") 10,
         .displayed (c2Item "B0") 10, .displayed (c2Item "B1") 10,
         .displayed (c2Item "B2") 10, .displayed (c2Item "A0") 10])
    ∧ List.Pairwise (fun a b => a ≠ b)
        [c2Item "A0", c2Item "A1", c2Item "B0", c2Item "B1", c2Item "B2"]
    ∧ c2Groups.map List.length = [2, 3]
    ∧ (∀ k : Nat, runLoop c2Cfg c2Env (5 * k) c2St =
        Except.ok (⟨Py.list [], Py.str "2024-01-02", c2Groups, 2 * k, 0⟩,
          List.flatten (List.replicate k
            [.displayed (c2Item "A0") 10, .displayed (c2Item "A1") 10,
             .displayed (c2Item "B0") 10, .displayed (c2Item "B1") 10,
             .displayed (c2Item "B2") 10]))) := by
  refine ⟨by rfl, by simp [c2Item, FlatMovieItem.mk.injEq], by rfl, fun k => ?_⟩
  have h := c2_cycle (Py.list []) (Py.str "2024-01-02") k 0
  simpa [c2St] using h
